import Mathlib

set_option autoImplicit false

/-!
Shallow embedding of the music-recommendation service (`app.py`) and
verification of its specification.

The embedding models the `/detect_emotion` handler (emotion fusion, language
detection, lexicon scoring, mood mapping) and the offline playlist provider.
External collaborators (the DeepFace vision classifier and the text2emotion
classifier) are modelled as opaque per-request inputs: the outcome of the
facial branch as an optional `(label, confidence)` pair, and the response
of the text classifier as an association list of `(label, score)` pairs. Confidences and
scores are rationals, standing in for Python floats; every comparison the
code performs is order-theoretic, so the rational model preserves it.
-/

namespace MusicApp

/-- Python `str.lower()` on one character, restricted to ASCII: uppercase
`A`–`Z` maps to lowercase, everything else (including Devanagari, which has
no case) is unchanged. This agrees with Python on the alphabets the program
uses (ASCII keywords and Devanagari keywords). -/
def pyLowerChar (c : Char) : Char :=
  if 65 ≤ c.toNat ∧ c.toNat ≤ 90 then Char.ofNat (c.toNat + 32) else c

/-- Python `str.lower()` (see `pyLowerChar`). -/
def pyLower (s : String) : String := ⟨s.data.map pyLowerChar⟩

/-- The whitespace characters removed by Python `str.strip()` (the ASCII
ones; Python also strips rarer Unicode space characters, which never occur
in the strings this program manipulates). -/
def isPySpace (c : Char) : Bool :=
  c = ' ' ∨ c = '\t' ∨ c = '\n' ∨ c = '\r' ∨ c.toNat = 11 ∨ c.toNat = 12

/-- Python `str.strip()`: drop whitespace from both ends. -/
def pyStrip (s : String) : String :=
  ⟨((s.data.dropWhile isPySpace).reverse.dropWhile isPySpace).reverse⟩

/-- Python `needle in hay` on strings: `needle` occurs as a contiguous
substring of `hay`. -/
def strContains (hay needle : String) : Bool :=
  (List.range (hay.data.length + 1)).any fun i => needle.data.isPrefixOf (hay.data.drop i)

/-- A codepoint in the Devanagari block U+0900–U+097F, as matched by the
regex `[ऀ-ॿ]` in `app.py` line 128. -/
def isDevanagariChar (c : Char) : Bool := 0x900 ≤ c.toNat ∧ c.toNat ≤ 0x97F

/-- Truthiness of the regex search of line 128: some character of the
text lies in the Devanagari block. -/
def containsDevanagari (s : String) : Bool := s.data.any isDevanagariChar

/-- The `emotion_keywords` table of `app.py` lines 111–118: one list per
emotion label, the English and Hindi keywords together in the same list,
in source order. -/
def emotion_keywords : List (String × List String) :=
  [ ("happy", ["happy", "joy", "excited", "great", "wonderful", "amazing",
      "fantastic", "love", "glad", "cheerful", "delighted", "thrilled",
      "excellent", "good", "awesome", "perfect", "खुश", "खुशी", "खुश हूँ",
      "मज़ा", "उत्साहित"]),
    ("sad", ["sad", "unhappy", "depressed", "lonely", "miserable", "down",
      "blue", "disappointed", "upset", "hurt", "heartbroken", "crying",
      "tears", "awful", "terrible", "bad", "उदास", "दुख", "टूट", "दुखी"]),
    ("angry", ["angry", "mad", "furious", "irritated", "annoyed",
      "frustrated", "rage", "pissed", "hate", "disgusted", "outraged",
      "गुस्सा", "क्रोधित", "नाराज़"]),
    ("fear", ["scared", "afraid", "fear", "anxious", "worried", "nervous",
      "terrified", "frightened", "panic", "डर", "घबराहट", "डरा"]),
    ("surprise", ["surprised", "shocked", "amazed", "astonished", "wow",
      "incredible", "unbelievable", "हैरान", "चकित"]),
    ("neutral", ["okay", "fine", "alright", "normal", "meh", "whatever",
      "ठीक", "अच्छा", "सामान्य"]) ]

/-- `sum(1 for keyword in keywords if keyword in text)` (line 123): the
number of keywords of the list occurring in the text. Each keyword counts
at most once, however often it occurs. -/
def keywordScore (keywords : List String) (text : String) : Nat :=
  (keywords.filter fun keyword => strContains text keyword).length

/-- The `emotion_scores` dict of lines 120–125: label ↦ keyword score, only
labels with positive score included, in table order (Python dicts preserve
insertion order). -/
def emotion_scores (text : String) : List (String × Nat) :=
  emotion_keywords.filterMap fun p =>
    if 0 < keywordScore p.2 text then some (p.1, keywordScore p.2 text) else none

/-- Python `max(d, key=d.get)` over an association list: the first entry
whose value is maximal (`max` keeps the earlier element on ties). -/
def dictArgmax (l : List (String × ℚ)) : Option (String × ℚ) :=
  match l with
  | [] => none
  | p :: rest => some (rest.foldl (fun best q => if best.2 < q.2 then q else best) p)

/-- `dictArgmax` for the integer-valued keyword-score dict. -/
def dictArgmaxNat (l : List (String × Nat)) : Option (String × Nat) :=
  match l with
  | [] => none
  | p :: rest => some (rest.foldl (fun best q => if best.2 < q.2 then q else best) p)

/-- Outcome of the text-analysis branch (lines 106–165): either a text
signal `(text_emotion, text_confidence)` together with the detected
`language`, or the early 400 return for undetectable text. -/
inductive TextResult where
  | signal (emotion : String) (confidence : ℚ) (language : String)
  | insufficient (language : String)
deriving DecidableEq, Repr

/-- The 400 message of lines 138 and 165. -/
def errTextMsg : String :=
  "Could not detect emotion from text. Please provide more descriptive text about your feelings."

/-- Lines 108–165 of `detect_emotion`: lower-case and strip the text, score
it against the combined keyword table, detect the language by Devanagari
presence, then: for Hindi use keyword scores only; for English consult the
external classifier response `teScores` (the result of
`te.get_emotion` applied to the raw text) and arbitrate between it and the keyword
scores. -/
def analyzeText (rawText : String) (teScores : List (String × ℚ)) : TextResult :=
  let text := pyStrip (pyLower rawText)
  let scores := emotion_scores text
  let is_hindi := containsDevanagari text
  let language := if is_hindi then "hi" else "en"
  if is_hindi then
    match dictArgmaxNat scores with
    | some (k, v) => .signal k (min (mkRat v 5) 1) language
    | none => .insufficient language
  else
    if teScores.any (fun p => p.2 != 0) then
      match dictArgmax teScores with
      | some (te_emotion, te_score) =>
        match dictArgmaxNat scores with
        | some (keyword_emotion, keyword_score) =>
          if 2 ≤ keyword_score ∨ (0 < keyword_score ∧ te_score < mkRat 3 10) then
            .signal keyword_emotion (min (mkRat keyword_score 5) 1) language
          else
            .signal te_emotion te_score language
        | none => .signal te_emotion te_score language
      | none => .insufficient language
    else
      match dictArgmaxNat scores with
      | some (k, v) => .signal k (min (mkRat v 5) 1) language
      | none => .insufficient language

/-- The language carried by a `TextResult`. -/
def TextResult.language : TextResult → String
  | .signal _ _ l => l
  | .insufficient l => l

/-- Whether the text branch produced a usable emotion: a signal whose label
is truthy. An `insufficient` outcome, or a signal with an empty label,
yields no usable emotion. -/
def TextResult.usableEmotion : TextResult → Bool
  | .signal e _ _ => e ≠ ""
  | .insufficient _ => false

/-- The `emotion_to_mood` dict of lines 28–43. -/
def emotion_to_mood : List (String × String) :=
  [ ("happy", "happy"), ("sad", "sad"), ("angry", "energetic"),
    ("fear", "calm"), ("surprise", "excited"), ("neutral", "chill"),
    ("disgust", "dark"), ("joy", "happy"), ("anticipation", "excited"),
    ("trust", "calm"), ("positive", "happy"), ("negative", "sad"),
    ("worry", "calm"), ("love", "romantic") ]

/-- Python dict get with default (line 204): lookup in `emotion_to_mood`,
falling back to "chill". -/
def moodLookup (key : String) : String := (emotion_to_mood.lookup key).getD "chill"

/-- The Mood Mapper: the handler lower-cases the final emotion (line 203)
before the defaulted dict lookup (line 204), so the composite lookup is
case-insensitive with fallback `"chill"`. -/
def toMood (label : String) : String := moodLookup (pyLower label)

/-- The EmotionVocabulary of the spec (§3). -/
def emotionVocabulary : List String :=
  [ "happy", "sad", "angry", "fear", "surprise", "neutral", "disgust",
    "joy", "anticipation", "trust", "positive", "negative", "worry", "love" ]

/-- The MoodVocabulary of the spec (§3). -/
def moodVocabulary : List String :=
  [ "happy", "sad", "energetic", "calm", "excited", "chill", "dark", "romantic" ]

/-- A playlist descriptor as produced by `get_spotify_playlists`. -/
structure Playlist where
  name : String
  url : String
  image : String
deriving DecidableEq, Repr

/-- The `sample_playlists_hi` table (lines 230–246). -/
def sample_playlists_hi : List (String × List Playlist) :=
  [ ("happy",
      [ ⟨"Bollywood Happy Hits", "https://open.spotify.com/playlist/37i9dQZF1DX2taZN6Kf4K1", "https://via.placeholder.com/300x300/FFD700/000000?text=Bollywood+Happy"⟩,
        ⟨"Top Bollywood", "https://open.spotify.com/playlist/37i9dQZF1DXcZ6X5YK6xG6", "https://via.placeholder.com/300x300/FF6B9D/000000?text=Top+Bollywood"⟩,
        ⟨"Bollywood Retro", "https://open.spotify.com/playlist/37i9dQZF1DX2yvmlOdMYzV", "https://via.placeholder.com/300x300/00D4FF/000000?text=Bollywood+Retro"⟩ ]),
    ("sad",
      [ ⟨"Bollywood Sad", "https://open.spotify.com/playlist/37i9dQZF1DWSf2RDTDayIx", "https://via.placeholder.com/300x300/4169E1/FFFFFF?text=Bollywood+Sad"⟩,
        ⟨"Sad Bollywood", "https://open.spotify.com/playlist/37i9dQZF1DX7qK8ma5wgG1", "https://via.placeholder.com/300x300/708090/FFFFFF?text=Sad+Bollywood"⟩,
        ⟨"Melancholic Bollywood", "https://open.spotify.com/playlist/37i9dQZF1DWX83CujKHHOn", "https://via.placeholder.com/300x300/2F4F4F/FFFFFF?text=Melancholy+Bollywood"⟩ ]),
    ("chill",
      [ ⟨"Bollywood Mellow", "https://open.spotify.com/playlist/37i9dQZF1DX889U0CL85jj", "https://via.placeholder.com/300x300/9370DB/000000?text=Bollywood+Chill"⟩,
        ⟨"Indie Hindi Chill", "https://open.spotify.com/playlist/37i9dQZF1DWWQRwui0ExPn", "https://via.placeholder.com/300x300/BA55D3/000000?text=Indie+Hindi"⟩,
        ⟨"Romantic Bollywood", "https://open.spotify.com/playlist/37i9dQZF1DX50QitC6Oqtn", "https://via.placeholder.com/300x300/FF1493/FFFFFF?text=Romantic+Bollywood"⟩ ]) ]

/-- The `sample_playlists` table (lines 249–290). -/
def sample_playlists : List (String × List Playlist) :=
  [ ("happy",
      [ ⟨"Happy Hits", "https://open.spotify.com/playlist/37i9dQZF1DXdPec7aLTmlC", "https://via.placeholder.com/300x300/FFD700/000000?text=Happy+Hits"⟩,
        ⟨"Feel Good Indie", "https://open.spotify.com/playlist/37i9dQZF1DX2sUQwD7tbmL", "https://via.placeholder.com/300x300/FF6B9D/000000?text=Feel+Good"⟩,
        ⟨"Mood Booster", "https://open.spotify.com/playlist/37i9dQZF1DX3rxVfibe1L0", "https://via.placeholder.com/300x300/00D4FF/000000?text=Mood+Booster"⟩ ]),
    ("sad",
      [ ⟨"Life Sucks", "https://open.spotify.com/playlist/37i9dQZF1DX7qK8ma5wgG1", "https://via.placeholder.com/300x300/4169E1/FFFFFF?text=Sad+Songs"⟩,
        ⟨"Sad Indie", "https://open.spotify.com/playlist/37i9dQZF1DX59NCqCqJtoH", "https://via.placeholder.com/300x300/708090/FFFFFF?text=Sad+Indie"⟩,
        ⟨"Melancholy", "https://open.spotify.com/playlist/37i9dQZF1DWX83CujKHHOn", "https://via.placeholder.com/300x300/2F4F4F/FFFFFF?text=Melancholy"⟩ ]),
    ("energetic",
      [ ⟨"Beast Mode", "https://open.spotify.com/playlist/37i9dQZF1DX76Wlfdnj7AP", "https://via.placeholder.com/300x300/FF4500/000000?text=Beast+Mode"⟩,
        ⟨"Power Workout", "https://open.spotify.com/playlist/37i9dQZF1DX70RN3TfWWJh", "https://via.placeholder.com/300x300/DC143C/000000?text=Power+Workout"⟩,
        ⟨"Adrenaline", "https://open.spotify.com/playlist/37i9dQZF1DX0pH2SQMRXnC", "https://via.placeholder.com/300x300/8B0000/FFFFFF?text=Adrenaline"⟩ ]),
    ("calm",
      [ ⟨"Peaceful Piano", "https://open.spotify.com/playlist/37i9dQZF1DX4sWSpwq3LiO", "https://via.placeholder.com/300x300/87CEEB/000000?text=Peaceful+Piano"⟩,
        ⟨"Calm Vibes", "https://open.spotify.com/playlist/37i9dQZF1DWU0ScTcjJBdj", "https://via.placeholder.com/300x300/ADD8E6/000000?text=Calm+Vibes"⟩,
        ⟨"Relaxing Sounds", "https://open.spotify.com/playlist/37i9dQZF1DWZd79rJ6a7lp", "https://via.placeholder.com/300x300/B0E0E6/000000?text=Relaxing"⟩ ]),
    ("excited",
      [ ⟨"Party Time", "https://open.spotify.com/playlist/37i9dQZF1DXaXB8fQg7xif", "https://via.placeholder.com/300x300/FF1493/000000?text=Party+Time"⟩,
        ⟨"Dance Party", "https://open.spotify.com/playlist/37i9dQZF1DX4dyzvuaRJ0n", "https://via.placeholder.com/300x300/FF69B4/000000?text=Dance+Party"⟩,
        ⟨"Energy Boost", "https://open.spotify.com/playlist/37i9dQZF1DX3Sp0P28SIer", "https://via.placeholder.com/300x300/FFB6C1/000000?text=Energy+Boost"⟩ ]),
    ("chill",
      [ ⟨"Chill Hits", "https://open.spotify.com/playlist/37i9dQZF1DX4WYpdgoIcn6", "https://via.placeholder.com/300x300/9370DB/000000?text=Chill+Hits"⟩,
        ⟨"Lofi Beats", "https://open.spotify.com/playlist/37i9dQZF1DWWQRwui0ExPn", "https://via.placeholder.com/300x300/BA55D3/000000?text=Lofi+Beats"⟩,
        ⟨"Chill Vibes", "https://open.spotify.com/playlist/37i9dQZF1DX889U0CL85jj", "https://via.placeholder.com/300x300/DDA0DD/000000?text=Chill+Vibes"⟩ ]),
    ("romantic",
      [ ⟨"Romantic", "https://open.spotify.com/playlist/37i9dQZF1DX50QitC6Oqtn", "https://via.placeholder.com/300x300/FF1493/FFFFFF?text=Romantic"⟩,
        ⟨"Love Songs", "https://open.spotify.com/playlist/37i9dQZF1DX0UrRvztWcAU", "https://via.placeholder.com/300x300/FF69B4/FFFFFF?text=Love+Songs"⟩,
        ⟨"Date Night", "https://open.spotify.com/playlist/37i9dQZF1DX4OzrY981I1W", "https://via.placeholder.com/300x300/FFB6C1/000000?text=Date+Night"⟩ ]),
    ("dark",
      [ ⟨"Dark & Stormy", "https://open.spotify.com/playlist/37i9dQZF1DX0XUfTFmNBRM", "https://via.placeholder.com/300x300/2F4F4F/FFFFFF?text=Dark"⟩,
        ⟨"Metal", "https://open.spotify.com/playlist/37i9dQZF1DWWOaP4H0w5b0", "https://via.placeholder.com/300x300/000000/FFFFFF?text=Metal"⟩,
        ⟨"Rock Hard", "https://open.spotify.com/playlist/37i9dQZF1DWXRqgorJj26U", "https://via.placeholder.com/300x300/1C1C1C/FFFFFF?text=Rock+Hard"⟩ ]) ]

/-- `get_spotify_playlists` in offline/static mode (`sp is None`, lines
227–291): select the bilingual static table by comparing the language with
"hi", then the
bucket by `mood` with the chill bucket as the `dict.get` default. (Online
mode queries the external catalog and is outside the modelled state.) -/
def get_spotify_playlists (mood : String) (language : String) : List Playlist :=
  if language = "hi" then
    (sample_playlists_hi.lookup mood).getD ((sample_playlists_hi.lookup "chill").getD [])
  else
    (sample_playlists.lookup mood).getD ((sample_playlists.lookup "chill").getD [])

/-- Python truthiness of the optional emotion-label strings in the fusion
step (`if facial_emotion and text_emotion`, line 183): `None` and the empty
string are falsy. -/
def truthy : Option String → Bool
  | some s => s ≠ ""
  | none => false

/-- Lines 183–200: fuse the optional facial and text signals into
`(final_emotion, confidence, final_method)`, `none` when neither label is
truthy (leaving `final_emotion = None`). -/
def fuse (facial_emotion : Option String) (facial_confidence : ℚ)
    (text_emotion : Option String) (text_confidence : ℚ) :
    Option (String × ℚ × String) :=
  if truthy facial_emotion ∧ truthy text_emotion then
    if text_confidence ≤ facial_confidence then
      some (facial_emotion.getD "", facial_confidence,
        if text_confidence < facial_confidence then "facial" else "combined")
    else
      some (text_emotion.getD "", text_confidence,
        if facial_confidence < text_confidence then "text" else "combined")
  else if truthy facial_emotion then
    some (facial_emotion.getD "", facial_confidence, "facial")
  else if truthy text_emotion then
    some (text_emotion.getD "", text_confidence, "text")
  else
    none

/-- A `/detect_emotion` request together with the responses of the external
classifiers for this request: `facial` is the outcome of the image branch
(lines 56–101) — `some (label, confidence)` when DeepFace produced a facial
signal, `none` when the `image` key is absent or any step of the branch
failed (those failures are absorbed and leave `facial_emotion = None`);
`text` is the optional `text` field of the JSON body; `teScores` is the
response of `te.get_emotion` for this text. -/
structure DetectRequest where
  facial : Option (String × ℚ)
  text : Option String
  teScores : List (String × ℚ)
deriving DecidableEq, Repr

/-- The HTTP outcome of the handler: a 200 JSON payload (lines 210–221), a
400 error (lines 138, 165, 224), or an exception escaping the handler,
which Flask turns into a 500 (the `UnboundLocalError` on `language` at
line 205 when the text branch never ran). -/
inductive HandlerResult where
  | ok (emotion mood language method : String) (confidence : ℚ)
      (playlists : List Playlist) (facial_emotion : Option String)
      (facial_confidence : ℚ) (text_emotion : Option String)
      (text_confidence : ℚ)
  | badRequest (error : String)
  | unhandledError (error : String)
deriving DecidableEq, Repr

/-- The 400 message of line 224. -/
def errNoEmotionMsg : String :=
  "Could not detect emotion. Please try again with clearer input."

/-- Lines 202–224: mood mapping, playlist fetch and response assembly.
`language` is `some` exactly when the text branch ran and assigned the
`language` local (line 129); reading it while unassigned raises
`UnboundLocalError`. -/
def respond (facial_emotion : Option String) (facial_confidence : ℚ)
    (text_emotion : Option String) (text_confidence : ℚ)
    (language : Option String) : HandlerResult :=
  match fuse facial_emotion facial_confidence text_emotion text_confidence with
  | some (final_emotion, confidence, final_method) =>
    match language with
    | some lang =>
      let emotion_lower := pyLower final_emotion
      let mood := moodLookup emotion_lower
      .ok emotion_lower mood lang final_method confidence
        (get_spotify_playlists mood lang) facial_emotion facial_confidence
        text_emotion text_confidence
    | none => .unhandledError "UnboundLocalError: local variable language referenced before assignment"
  | none => .badRequest errNoEmotionMsg

/-- The whole `/detect_emotion` handler (lines 50–224) on an already-parsed
request. The text branch runs only when the `text` key is present and
the stripped text field is truthy (line 106). -/
def detect_emotion (req : DetectRequest) : HandlerResult :=
  let facial_emotion : Option String := req.facial.map Prod.fst
  let facial_confidence : ℚ := match req.facial with
    | some p => p.2
    | none => 0
  match req.text with
  | some t =>
    if pyStrip t ≠ "" then
      match analyzeText t req.teScores with
      | .insufficient _ => .badRequest errTextMsg
      | .signal text_emotion text_confidence language =>
        respond facial_emotion facial_confidence (some text_emotion)
          text_confidence (some language)
    else
      respond facial_emotion facial_confidence none 0 none
  | none => respond facial_emotion facial_confidence none 0 none

/-- A keyword belonging to the Hindi half of the bilingual lexicon of the
spec: the spec describes a "Devanagari Hindi list" disjoint from the
"Latin-script English list", so a keyword is Hindi exactly when it contains
a Devanagari codepoint. -/
def isHindiKeyword (kw : String) : Bool := containsDevanagari kw

/-- Follows the words of the spec, not the source (for comparison): lexicon
scores computed from the Hindi keyword table alone, the table the spec says
is the only one consulted for Hindi-script text. -/
def emotion_scoresHindiTable (text : String) : List (String × Nat) :=
  emotion_keywords.filterMap fun p =>
    if 0 < keywordScore (p.2.filter isHindiKeyword) text then
      some (p.1, keywordScore (p.2.filter isHindiKeyword) text)
    else none

/-- The number of substring occurrences of `needle` in `hay`: the count of
starting positions at which `needle` matches. -/
def occurrenceCount (hay needle : String) : Nat :=
  ((List.range (hay.data.length + 1)).filter fun i =>
    needle.data.isPrefixOf (hay.data.drop i)).length

/-- Follows the words of the spec, not the source (for comparison): each label
mapped to the total count of substring occurrences of its keywords, labels
with count 0 omitted. -/
def emotion_scoresOccurrences (text : String) : List (String × Nat) :=
  emotion_keywords.filterMap fun p =>
    if 0 < (p.2.map (occurrenceCount text)).sum then
      some (p.1, (p.2.map (occurrenceCount text)).sum)
    else none

theorem isDevanagariChar_pyLowerChar (c : Char) :
    isDevanagariChar (pyLowerChar c) = isDevanagariChar c := by
  unfold pyLowerChar
  split
  · rename_i h
    have hv : (c.toNat + 32).isValidChar := by left; omega
    have ht : (Char.ofNat (c.toNat + 32)).toNat = c.toNat + 32 := by
      unfold Char.ofNat
      rw [dif_pos hv]
      simp [Char.ofNatAux, Char.toNat, UInt32.toNat, UInt32.ofNat', BitVec.toNat_ofNat]
    simp only [isDevanagariChar, ht, decide_eq_decide]
    omega
  · rfl

theorem containsDevanagari_pyLower (s : String) :
    containsDevanagari (pyLower s) = containsDevanagari s := by
  have hfun : (isDevanagariChar ∘ pyLowerChar) = isDevanagariChar :=
    funext fun c => by simp [Function.comp, isDevanagariChar_pyLowerChar]
  simp [containsDevanagari, pyLower, List.any_map, hfun]

theorem isDevanagariChar_of_isPySpace (c : Char) (h : isPySpace c = true) :
    isDevanagariChar c = false := by
  simp only [isPySpace, decide_eq_true_eq] at h
  rcases h with h | h | h | h | h | h <;>
    simp only [isDevanagariChar, decide_eq_false_iff_not] <;>
    first
      | (subst h; decide)
      | omega

theorem any_dropWhile_isDevanagariChar (l : List Char) :
    (l.dropWhile isPySpace).any isDevanagariChar = l.any isDevanagariChar := by
  induction l with
  | nil => rfl
  | cons c cs ih =>
    by_cases h : isPySpace c
    · simp [List.dropWhile_cons, h, ih, isDevanagariChar_of_isPySpace c h]
    · simp [List.dropWhile_cons, h]

theorem containsDevanagari_pyStrip (s : String) :
    containsDevanagari (pyStrip s) = containsDevanagari s := by
  simp [containsDevanagari, pyStrip, List.any_reverse, any_dropWhile_isDevanagariChar]

theorem containsDevanagari_processed (s : String) :
    containsDevanagari (pyStrip (pyLower s)) = containsDevanagari s := by
  rw [containsDevanagari_pyStrip, containsDevanagari_pyLower]

theorem analyzeText_language_eq (t : String) (teScores : List (String × ℚ)) :
    (analyzeText t teScores).language =
      if containsDevanagari t then "hi" else "en" := by
  rw [← containsDevanagari_processed t]
  unfold analyzeText
  cases hd : containsDevanagari (pyStrip (pyLower t)) <;>
    simp only [hd, Bool.false_eq_true, if_false, if_true]
  · by_cases hz : teScores.any (fun p => p.2 != 0) = true
    · rw [if_pos hz]
      cases hm : dictArgmax teScores with
      | none => rfl
      | some p =>
        obtain ⟨l, s⟩ := p
        cases hk : dictArgmaxNat (emotion_scores (pyStrip (pyLower t))) with
        | none => rfl
        | some q =>
          obtain ⟨kl, ks⟩ := q
          by_cases hc : 2 ≤ ks ∨ 0 < ks ∧ s < mkRat 3 10 <;>
            simp [hc, TextResult.language]
    · rw [if_neg hz]
      cases hk : dictArgmaxNat (emotion_scores (pyStrip (pyLower t))) with
      | none => rfl
      | some q => obtain ⟨kl, ks⟩ := q; rfl
  · cases hk : dictArgmaxNat (emotion_scores (pyStrip (pyLower t))) with
    | none => rfl
    | some q => obtain ⟨kl, ks⟩ := q; rfl

/-- Claim C4: for every request with non-empty (non-blank) text, the
detected language is "hi" exactly when the text contains at least one
Devanagari codepoint (U+0900–U+097F), and "en" otherwise. -/
theorem language_from_script (t : String) (teScores : List (String × ℚ))
    (_hne : pyStrip t ≠ "") :
    ((analyzeText t teScores).language = "hi" ↔ containsDevanagari t = true) ∧
    (containsDevanagari t = false → (analyzeText t teScores).language = "en") := by
  have h := analyzeText_language_eq t teScores
  cases hd : containsDevanagari t <;> simp [hd] at h <;> simp [h, hd]

/-- Witness for `language_from_script` at the Hindi text "खुश" and the
English text "good vibes". -/
theorem language_from_script_witness :
    (analyzeText "खुश" []).language = "hi" ∧
    (analyzeText "good vibes" []).language = "en" :=
  ⟨(language_from_script "खुश" [] (by decide)).1.mpr (by decide),
   (language_from_script "good vibes" [] (by decide)).2 (by decide)⟩

/-- Claim C1: when both a facial and a text signal are present, the fusion
step keeps the emotion and confidence of the signal with the higher
confidence; its method is the modality name of that signal when its confidence
is strictly greater, and "combined" when the two confidences are equal
(the code then keeps the label of the facial signal and their common
confidence). -/
theorem fusion_both_present (fe te : String) (fc tc : ℚ)
    (hfe : fe ≠ "") (hte : te ≠ "") :
    (tc < fc → fuse (some fe) fc (some te) tc = some (fe, fc, "facial")) ∧
    (fc < tc → fuse (some fe) fc (some te) tc = some (te, tc, "text")) ∧
    (fc = tc → fuse (some fe) fc (some te) tc = some (fe, fc, "combined")) := by
  refine ⟨fun h => ?_, fun h => ?_, fun h => ?_⟩
  · simp [fuse, truthy, hfe, hte, h, h.le]
  · simp [fuse, truthy, hfe, hte, h, not_le.mpr h, le_of_lt h]
  · subst h
    simp [fuse, truthy, hfe, hte, lt_irrefl]

/-- Witness for `fusion_both_present`: a facial signal at confidence 9/10
beats a text signal at 1/2, and equal confidences give method "combined". -/
theorem fusion_both_present_witness :
    fuse (some "happy") (mkRat 9 10) (some "Sad") (mkRat 1 2) =
      some ("happy", mkRat 9 10, "facial") ∧
    fuse (some "happy") (mkRat 1 2) (some "Sad") (mkRat 1 2) =
      some ("happy", mkRat 1 2, "combined") :=
  ⟨(fusion_both_present "happy" "Sad" (mkRat 9 10) (mkRat 1 2)
      (by decide) (by decide)).1 (by decide),
   (fusion_both_present "happy" "Sad" (mkRat 1 2) (mkRat 1 2)
      (by decide) (by decide)).2.2 rfl⟩

/-- Claim C3 (code bug): for a request in which only a facial signal is
present the handler is specified to return 200 with method "facial", but
the code reads the local `language` (line 205), which is assigned only
inside the text branch (line 129): the request raises `UnboundLocalError`
and Flask answers 500, never reaching the 200 response. -/
theorem facial_only_unbound_language (label : String) (conf : ℚ)
    (teScores : List (String × ℚ)) (h : label ≠ "") :
    detect_emotion ⟨some (label, conf), none, teScores⟩ =
      .unhandledError
        "UnboundLocalError: local variable language referenced before assignment" := by
  simp [detect_emotion, respond, fuse, truthy, h]

/-- Witness for `facial_only_unbound_language` at a facial signal
("happy", 9/10). -/
theorem facial_only_unbound_language_witness :
    detect_emotion ⟨some ("happy", mkRat 9 10), none, []⟩ =
      .unhandledError
        "UnboundLocalError: local variable language referenced before assignment" :=
  facial_only_unbound_language "happy" (mkRat 9 10) [] (by decide)

/-- Claim C7: the endpoint returns a 400 response with an error message
whenever neither modality yields a usable emotion — the facial branch
produced no truthy label, and the text branch is absent, blank, or
produced no usable emotion. The response carries one of the two error
messages of lines 138/165 and 224. The empty JSON body and the
no-keyword text with an all-zero classifier response are instances,
exercised in the witness. -/
theorem insufficient_signal_400 (facial : Option (String × ℚ))
    (text : Option String) (teS : List (String × ℚ))
    (hf : truthy (facial.map Prod.fst) = false)
    (ht : ∀ t, text = some t → pyStrip t ≠ "" →
      (analyzeText t teS).usableEmotion = false) :
    detect_emotion ⟨facial, text, teS⟩ = .badRequest errTextMsg ∨
      detect_emotion ⟨facial, text, teS⟩ = .badRequest errNoEmotionMsg := by
  have htn : truthy none = false := rfl
  have hts : truthy (some "") = false := by decide
  cases text with
  | none =>
    right
    simp [detect_emotion, respond, fuse, hf, htn]
  | some t =>
    by_cases hb : pyStrip t = ""
    · right
      simp [detect_emotion, hb, respond, fuse, hf, htn]
    · have hu := ht t rfl hb
      cases ha : analyzeText t teS with
      | insufficient lang =>
        left
        simp [detect_emotion, hb, ha]
      | signal e c lang =>
        rw [ha] at hu
        have he : e = "" := by simpa [TextResult.usableEmotion] using hu
        subst he
        right
        simp [detect_emotion, hb, ha, respond, fuse, hf, hts]

/-- Witness for `insufficient_signal_400`: the empty request yields the
400 no-emotion response, and English text with no matching keyword under
an all-zero classifier response yields the 400 text-error response. -/
theorem insufficient_signal_400_witness :
    detect_emotion ⟨none, none, []⟩ = .badRequest errNoEmotionMsg ∧
    detect_emotion ⟨none, some "zzz qqq", [("Happy", 0), ("Sad", 0)]⟩ =
      .badRequest errTextMsg := by
  constructor
  · rcases insufficient_signal_400 none none [] (by decide)
        (fun t ht _ => nomatch ht) with h | h
    · exact absurd h (by decide)
    · exact h
  · rcases insufficient_signal_400 none (some "zzz qqq") [("Happy", 0), ("Sad", 0)]
        (by decide) (fun t ht hb => by cases ht; decide) with h | h
    · exact h
    · exact absurd h (by decide)

/-- Claim C10: a request whose text is only whitespace behaves exactly like
a request with no text field (no text analysis runs, whatever the
classifier would answer), and with no facial signal either it yields the
400 no-emotion response. -/
theorem blank_text_like_absent (w : String) (hw : pyStrip w = "")
    (facial : Option (String × ℚ)) (teS teS' : List (String × ℚ)) :
    detect_emotion ⟨facial, some w, teS⟩ = detect_emotion ⟨facial, none, teS'⟩ ∧
    detect_emotion ⟨none, some w, teS⟩ = .badRequest errNoEmotionMsg := by
  constructor
  · simp [detect_emotion, hw]
  · simp [detect_emotion, hw, respond, fuse, truthy]

/-- Witness for `blank_text_like_absent` at the whitespace text "  ". -/
theorem blank_text_like_absent_witness :
    detect_emotion ⟨some ("happy", 1), some "  ", [("Happy", 1)]⟩ =
      detect_emotion ⟨some ("happy", 1), none, []⟩ ∧
    detect_emotion ⟨none, some "  ", [("Happy", 1)]⟩ =
      .badRequest errNoEmotionMsg :=
  blank_text_like_absent "  " (by decide) (some ("happy", 1)) [("Happy", 1)] []

/-- Claim C9: in offline/static mode, `get_spotify_playlists "romantic"
"en"` returns exactly 3 descriptors with non-empty names and urls, and a
mood missing from the selected static table falls back to the chill bucket
of that table. -/
theorem offline_playlists (mood : String) :
    (get_spotify_playlists "romantic" "en").length = 3 ∧
    (∀ p ∈ get_spotify_playlists "romantic" "en", p.name ≠ "" ∧ p.url ≠ "") ∧
    (sample_playlists.lookup mood = none →
      get_spotify_playlists mood "en" = (sample_playlists.lookup "chill").getD []) ∧
    (sample_playlists_hi.lookup mood = none →
      get_spotify_playlists mood "hi" = (sample_playlists_hi.lookup "chill").getD []) := by
  refine ⟨by decide, by decide, fun h => ?_, fun h => ?_⟩
  · simp [get_spotify_playlists, h]
  · simp [get_spotify_playlists, h]

/-- Witness for `offline_playlists`: the first romantic descriptor is
non-empty, and the unknown mood "fearless" falls back to the chill bucket
in both tables. -/
theorem offline_playlists_witness :
    (get_spotify_playlists "romantic" "en").length = 3 ∧
    get_spotify_playlists "fearless" "en" =
      (sample_playlists.lookup "chill").getD [] ∧
    get_spotify_playlists "fearless" "hi" =
      (sample_playlists_hi.lookup "chill").getD [] :=
  ⟨(offline_playlists "fearless").1,
   (offline_playlists "fearless").2.2.1 (by decide),
   (offline_playlists "fearless").2.2.2 (by decide)⟩

/-- Claim C5: selection between the result of the external classifier and
the lexicon result for English text with a non-all-zero classifier map. The
lexicon wins exactly when its score is at least 2, or positive while the
top classifier score is below 0.3; with no keyword match the classifier
result stands. -/
theorem english_arbitration (t : String) (teScores : List (String × ℚ))
    (hen : containsDevanagari t = false)
    (hnz : teScores.any (fun p => p.2 != 0) = true)
    (teLabel : String) (teScore : ℚ)
    (hte : dictArgmax teScores = some (teLabel, teScore)) :
    (emotion_scores (pyStrip (pyLower t)) = [] →
      analyzeText t teScores = .signal teLabel teScore "en") ∧
    (∀ kwLabel kwScore,
      dictArgmaxNat (emotion_scores (pyStrip (pyLower t))) = some (kwLabel, kwScore) →
      analyzeText t teScores =
        if 2 ≤ kwScore ∨ (0 < kwScore ∧ teScore < mkRat 3 10) then
          .signal kwLabel (min (mkRat kwScore 5) 1) "en"
        else .signal teLabel teScore "en") := by
  have hen' : containsDevanagari (pyStrip (pyLower t)) = false := by
    rw [containsDevanagari_processed]; exact hen
  constructor
  · intro hsc
    unfold analyzeText
    simp [hen', hnz, hte, hsc, dictArgmaxNat]
  · intro kwLabel kwScore hkw
    unfold analyzeText
    simp [hen', hnz, hte, hkw]

/-- Witness for `english_arbitration`: on "happy day" the keyword score is
only 1 and the classifier score 1/2 is not weak, so the classifier
result stands. -/
theorem english_arbitration_witness :
    analyzeText "happy day" [("Happy", mkRat 1 2)] =
      .signal "Happy" (mkRat 1 2) "en" := by
  have h := (english_arbitration "happy day" [("Happy", mkRat 1 2)]
      (by decide) (by decide) "Happy" (mkRat 1 2) (by decide)).2 "happy" 1 (by decide)
  rw [if_neg (by decide)] at h
  exact h

theorem mem_of_lookup_eq_some {l : List (String × String)} {k v : String}
    (h : l.lookup k = some v) : (k, v) ∈ l := by
  induction l with
  | nil => simp [List.lookup] at h
  | cons p rest ih =>
    obtain ⟨a, b⟩ := p
    rw [List.lookup_cons] at h
    split at h
    · rename_i hk
      cases h
      have : k = a := by simpa using hk
      subst this
      exact List.mem_cons_self _ _
    · exact List.mem_cons_of_mem _ (ih h)

theorem moodLookup_mem (key : String) : moodLookup key ∈ moodVocabulary := by
  unfold moodLookup
  cases h : emotion_to_mood.lookup key with
  | none => decide
  | some m =>
    have hsub : ∀ x ∈ emotion_to_mood.map Prod.snd, x ∈ moodVocabulary := by decide
    exact hsub m (List.mem_map_of_mem Prod.snd (mem_of_lookup_eq_some h))

theorem toNat_pyLowerChar (c : Char) :
    (pyLowerChar c).toNat =
      if 65 ≤ c.toNat ∧ c.toNat ≤ 90 then c.toNat + 32 else c.toNat := by
  unfold pyLowerChar
  split
  · rename_i h
    have hv : (c.toNat + 32).isValidChar := by left; omega
    unfold Char.ofNat
    rw [dif_pos hv]
    simp [Char.ofNatAux, Char.toNat, UInt32.toNat, UInt32.ofNat', BitVec.toNat_ofNat]
  · rfl

theorem pyLowerChar_idem (c : Char) :
    pyLowerChar (pyLowerChar c) = pyLowerChar c := by
  have h := toNat_pyLowerChar c
  have hno : ¬ (65 ≤ (pyLowerChar c).toNat ∧ (pyLowerChar c).toNat ≤ 90) := by
    by_cases hc : 65 ≤ c.toNat ∧ c.toNat ≤ 90
    · rw [if_pos hc] at h; omega
    · rw [if_neg hc] at h; omega
  show (if 65 ≤ (pyLowerChar c).toNat ∧ (pyLowerChar c).toNat ≤ 90 then
      Char.ofNat ((pyLowerChar c).toNat + 32) else pyLowerChar c) = pyLowerChar c
  rw [if_neg hno]

theorem pyLower_idem (s : String) : pyLower (pyLower s) = pyLower s := by
  have hfun : pyLowerChar ∘ pyLowerChar = pyLowerChar := funext pyLowerChar_idem
  simp [pyLower, List.map_map, hfun]

/-- Claim C6: the mood mapping is total — for every string label, looked up
case-insensitively, it returns a member of the MoodVocabulary; every
EmotionVocabulary label has exactly one mapped mood; an unmapped key falls
back to "chill". -/
theorem mood_mapper_total :
    (∀ label : String, toMood label ∈ moodVocabulary) ∧
    (∀ e ∈ emotionVocabulary,
      (emotion_to_mood.lookup e).isSome = true ∧ toMood e ∈ moodVocabulary) ∧
    (∀ label : String, toMood label = toMood (pyLower label)) ∧
    (∀ label : String, emotion_to_mood.lookup (pyLower label) = none →
      toMood label = "chill") := by
  refine ⟨fun label => moodLookup_mem _, by decide, fun label => ?_, fun label h => ?_⟩
  · rw [toMood, toMood, pyLower_idem]
  · simp [toMood, moodLookup, h]

/-- Witness for `mood_mapper_total`: "disgust" maps into the vocabulary,
"LOVE" is looked up case-insensitively, and the unknown label "confused"
falls back to "chill". -/
theorem mood_mapper_total_witness :
    toMood "disgust" ∈ moodVocabulary ∧
    toMood "LOVE" = toMood "love" ∧
    toMood "confused" = "chill" :=
  ⟨(mood_mapper_total.2.1 "disgust" (by decide)).2,
   mood_mapper_total.2.2.1 "LOVE",
   mood_mapper_total.2.2.2 "confused" (by decide)⟩

/-- Counterexample to claim C2: the code scores against one combined
bilingual keyword table, not per-language tables. The text "happy खुश"
contains Devanagari, yet the English keyword "happy" contributes: the
combined score for label "happy" is 2 (confidence 2/5) where the
Hindi-table score would be 1. -/
theorem hindi_combined_table_cex :
    containsDevanagari "happy खुश" = true ∧
    emotion_scores (pyStrip (pyLower "happy खुश")) = [("happy", 2)] ∧
    emotion_scoresHindiTable (pyStrip (pyLower "happy खुश")) = [("happy", 1)] ∧
    analyzeText "happy खुश" [] = .signal "happy" (min (mkRat 2 5) 1) "hi" := by
  decide

theorem length_filter_split {α : Type} (q f : α → Bool) (l : List α) :
    (l.filter f).length =
      (l.filter fun a => !q a && f a).length +
        (l.filter fun a => q a && f a).length := by
  induction l with
  | nil => rfl
  | cons a t ih =>
    cases hq : q a <;> cases hf : f a <;>
      simp [List.filter_cons, hq, hf, ih] <;> omega

/-- Claim C2 amended: for Hindi-script text the classifier is skipped (the
outcome is independent of the classifier response), but the lexicon scores
come from the single combined table: the score of each label is the number of
its English (non-Devanagari) keywords occurring plus the number of its
Hindi keywords occurring, so English keywords also contribute. -/
theorem hindi_scoring_amended (t : String) (h : containsDevanagari t = true) :
    (∀ teS teS' : List (String × ℚ), analyzeText t teS = analyzeText t teS') ∧
    (∀ p ∈ emotion_keywords,
      keywordScore p.2 (pyStrip (pyLower t)) =
        keywordScore (p.2.filter fun kw => !isHindiKeyword kw) (pyStrip (pyLower t)) +
          keywordScore (p.2.filter isHindiKeyword) (pyStrip (pyLower t))) := by
  have h' : containsDevanagari (pyStrip (pyLower t)) = true := by
    rw [containsDevanagari_processed]; exact h
  constructor
  · intro teS teS'
    unfold analyzeText
    simp [h']
  · intro p hp
    have hs := length_filter_split isHindiKeyword
      (fun kw => strContains (pyStrip (pyLower t)) kw) p.2
    simpa [keywordScore, List.filter_filter, Bool.and_comm] using hs

/-- Witness for `hindi_scoring_amended`: on "happy खुश" the classifier
response is never consulted. -/
theorem hindi_scoring_amended_witness :
    analyzeText "happy खुश" [] = analyzeText "happy खुश" [("Happy", 1)] :=
  (hindi_scoring_amended "happy खुश" (by decide)).1 [] [("Happy", 1)]

/-- Counterexample to claim C8: the scorer counts each keyword at most
once, not its substring occurrences. On "happy happy" the code scores the
label "happy" with 1; occurrence counting would score 2. -/
theorem occurrence_count_cex :
    emotion_scores (pyStrip (pyLower "happy happy")) = [("happy", 1)] ∧
    emotion_scoresOccurrences (pyStrip (pyLower "happy happy")) = [("happy", 2)] ∧
    emotion_scores (pyStrip (pyLower "happy happy")) ≠
      emotion_scoresOccurrences (pyStrip (pyLower "happy happy")) := by
  decide

theorem scores_lookup_eq_none (table : List (String × List String))
    (text emo : String) (h : emo ∉ table.map Prod.fst) :
    ((table.filterMap fun p =>
      if 0 < keywordScore p.2 text then some (p.1, keywordScore p.2 text)
      else none).lookup emo) = none := by
  induction table with
  | nil => rfl
  | cons q rest ih =>
    rw [List.map_cons, List.mem_cons] at h
    push_neg at h
    obtain ⟨hq, hrest⟩ := h
    rw [List.filterMap_cons]
    split
    · exact ih hrest
    · rename_i b hsome
      split at hsome
      · cases hsome
        rw [List.lookup_cons]
        have hbe : (emo == q.1) = false := beq_eq_false_iff_ne.mpr hq
        rw [hbe]
        exact ih hrest
      · cases hsome

theorem scores_table_lookup (text emo : String) (kws : List String)
    (table : List (String × List String)) (hmem : (emo, kws) ∈ table)
    (hnd : (table.map Prod.fst).Nodup) :
    ((table.filterMap fun p =>
      if 0 < keywordScore p.2 text then some (p.1, keywordScore p.2 text)
      else none).lookup emo) =
      if 0 < keywordScore kws text then some (keywordScore kws text)
      else none := by
  induction table with
  | nil => cases hmem
  | cons q rest ih =>
    rw [List.map_cons, List.nodup_cons] at hnd
    obtain ⟨hq, hndrest⟩ := hnd
    rcases List.mem_cons.mp hmem with heq | hmemrest
    · subst heq
      rw [List.filterMap_cons]
      split
      · rename_i hnone
        split at hnone
        · cases hnone
        · rename_i hneg
          rw [if_neg hneg]
          exact scores_lookup_eq_none rest text emo hq
      · rename_i b hsome
        split at hsome
        · rename_i hpos
          cases hsome
          rw [List.lookup_cons]
          have hbe : (emo == emo) = true := beq_self_eq_true emo
          rw [hbe, if_pos hpos]
        · cases hsome
    · have hqe : (emo == q.1) = false := by
        refine beq_eq_false_iff_ne.mpr fun he => ?_
        exact hq (he ▸ List.mem_map_of_mem Prod.fst hmemrest)
      rw [List.filterMap_cons]
      split
      · exact ih hmemrest hndrest
      · rename_i b hsome
        split at hsome
        · cases hsome
          rw [List.lookup_cons, hqe]
          exact ih hmemrest hndrest
        · cases hsome

/-- Claim C8 amended: the lexicon scorer, applied to lower-cased trimmed
text, maps each label to the number of its keywords occurring at
least once as a case-sensitive substring (each keyword counted once,
however many occurrences); only labels with positive count appear; it
never fails and yields the empty mapping when nothing matches. -/
theorem lexicon_scores_amended (text : String) :
    (∀ p ∈ emotion_scores text, 0 < p.2) ∧
    (∀ emo kws, (emo, kws) ∈ emotion_keywords →
      (emotion_scores text).lookup emo =
        if 0 < keywordScore kws text then some (keywordScore kws text)
        else none) ∧
    ((∀ p ∈ emotion_keywords, keywordScore p.2 text = 0) →
      emotion_scores text = []) := by
  refine ⟨?_, ?_, ?_⟩
  · intro p hp
    simp only [emotion_scores, List.mem_filterMap] at hp
    obtain ⟨a, _, hfa⟩ := hp
    split at hfa
    · cases hfa; assumption
    · cases hfa
  · intro emo kws hmem
    exact scores_table_lookup text emo kws emotion_keywords hmem (by decide)
  · intro hz
    simp only [emotion_scores, List.filterMap_eq_nil_iff]
    intro p hp
    simp [hz p hp]

/-- Witness for `lexicon_scores_amended`: the label "happy" on the text
"happy happy" scores 1. -/
theorem lexicon_scores_amended_witness :
    (emotion_scores (pyStrip (pyLower "happy happy"))).lookup "happy" =
      some 1 := by
  have h := (lexicon_scores_amended (pyStrip (pyLower "happy happy"))).2.1
      "happy"
      ["happy", "joy", "excited", "great", "wonderful", "amazing",
        "fantastic", "love", "glad", "cheerful", "delighted", "thrilled",
        "excellent", "good", "awesome", "perfect", "खुश", "खुशी", "खुश हूँ",
        "मज़ा", "उत्साहित"] (by decide)
  rw [h]
  decide

end MusicApp
